import Mathlib

/-!
Shallow embedding of the pdfua-service Flask application (src/app.py).

Python strings are modelled as Lean `String` where only equality and
concatenation matter, and as `List Char` where the code inspects the
characters of a filename (`allowed_file`); the per-character case mapping
of Python's `str.lower` is modelled by `Char.toLower`.

External subprocess invocations (`subprocess.run`) are modelled by an
environment `Env` that fixes, for each of the three argument vectors the
code can spawn, either the completed process (exit code, stdout, stderr)
or a `FileNotFoundError` raised at spawn time.  The filesystem facts a
run depends on are carried in the same environment.  `convert_to_pdfua`
and the request handler `convert_pdf` additionally return the trace of
observable effects (spawned argument vectors, temp-file allocations,
saves and deletions) so that temporal and resource claims can be stated.
-/

namespace PdfuaService

/-- Completed subprocess: captured exit code and both output streams
(`subprocess.CompletedProcess`). -/
structure ProcResult where
  returncode : Int
  stdout : String
  stderr : String
deriving DecidableEq

/-- Result of attempting to spawn a subprocess: either it ran to
completion, or the executable could not be spawned and
`FileNotFoundError msg` was raised. -/
inductive RunResult where
  | ok (r : ProcResult)
  | fileNotFound (msg : String)
deriving DecidableEq

/-- Environment fixing the outcome of each subprocess the code can spawn
during one call of `convert_to_pdfua`, plus the size of the output file
after the Ghostscript run (`none` when the file is absent).  The source
never reads that last field back; it is recorded so claims about the
output file can be stated. -/
structure Env where
  veraProbe : RunResult
  gsRun : RunResult
  validateRun : RunResult
  outputSizeAfterGs : Option Nat
deriving DecidableEq

/-- Argument vector of the availability probe, line 18 of app.py. -/
def verapdf_version_cmd : List String := ["verapdf", "--version"]

/-- Argument vector `gs_cmd` built on lines 24-31 of app.py. -/
def gs_cmd (output_pdf_path input_pdf_path : String) : List String :=
  ["gs", "-dPDFA", "-dPDFUA", "-dNOPAUSE", "-dBATCH",
   "-sColorConversionStrategy=UseDeviceIndependentColor",
   "-sDEVICE=pdfwrite", "-dPDFACompatibilityPolicy=2",
   "-dCompatibilityLevel=1.7",
   "-sOutputFile=" ++ output_pdf_path,
   input_pdf_path]

/-- Argument vector `validate_cmd` built on lines 38-42 of app.py. -/
def validate_cmd (output_pdf_path : String) : List String :=
  ["verapdf", "--flavour", "pdfua-1", output_pdf_path]

/-- Lines 17-21 of app.py: `subprocess.run(['verapdf','--version'], check=True)`
inside `try/except (CalledProcessError, FileNotFoundError)`.  The flag is
true exactly when the probe spawns and exits zero. -/
def vera_available (probe : RunResult) : Bool :=
  match probe with
  | RunResult.ok r => r.returncode == 0
  | RunResult.fileNotFound _ => false

/-- Lines 10-58 of app.py, `convert_to_pdfua`.  Returns the
`(success, message)` pair together with the ordered trace of argument
vectors that were spawned.  A spawn failure of the Ghostscript or veraPDF
validation run raises `FileNotFoundError`, which the outer
`except Exception` turns into `(False, "Conversion error: ...")`. -/
def convert_to_pdfua (env : Env) (input_pdf_path output_pdf_path : String) :
    (Bool × String) × List (List String) :=
  match env.gsRun with
  | RunResult.fileNotFound msg =>
    ((false, "Conversion error: " ++ msg),
     [verapdf_version_cmd, gs_cmd output_pdf_path input_pdf_path])
  | RunResult.ok gs_result =>
    if gs_result.returncode == 0 then
      if vera_available env.veraProbe then
        match env.validateRun with
        | RunResult.fileNotFound msg =>
          ((false, "Conversion error: " ++ msg),
           [verapdf_version_cmd, gs_cmd output_pdf_path input_pdf_path,
            validate_cmd output_pdf_path])
        | RunResult.ok validate_result =>
          if validate_result.returncode == 1 then
            ((true, "Successfully converted to PDF/UA (validated)"),
             [verapdf_version_cmd, gs_cmd output_pdf_path input_pdf_path,
              validate_cmd output_pdf_path])
          else
            ((true, "Conversion completed but file may not be fully PDF/UA compliant"),
             [verapdf_version_cmd, gs_cmd output_pdf_path input_pdf_path,
              validate_cmd output_pdf_path])
      else
        ((true, "Conversion completed (veraPDF not available for validation)"),
         [verapdf_version_cmd, gs_cmd output_pdf_path input_pdf_path])
    else
      ((false, "Conversion failed: " ++
          (if gs_result.stderr == "" then "Unknown Ghostscript error" else gs_result.stderr)),
       [verapdf_version_cmd, gs_cmd output_pdf_path input_pdf_path])

/-- Lines 61-63 of app.py: a filename passes when it contains a dot and
its lowercase form ends with the `.pdf` suffix. -/
def allowed_file (filename : List Char) : Bool :=
  filename.contains '.' && List.isSuffixOf ".pdf".data (filename.map Char.toLower)

example : allowed_file "Doc.PDF".data = true := by decide
example : allowed_file ".pdf".data = true := by decide
example : allowed_file "notes.txt".data = false := by decide
example : (convert_to_pdfua
    { veraProbe := RunResult.fileNotFound "nf", gsRun := RunResult.ok { returncode := 0, stdout := "", stderr := "" },
      validateRun := RunResult.fileNotFound "nf", outputSizeAfterGs := some 8192 } "a" "b").1
    = (true, "Conversion completed (veraPDF not available for validation)") := by decide

/-- Uploaded file as seen through Flask: the client-supplied filename,
modelled character by character. -/
structure UploadedFile where
  filename : List Char
deriving DecidableEq

/-- Incoming multipart request: `request.files` as an association list
from field name to uploaded file (first binding wins on lookup). -/
structure HttpRequest where
  files : List (String × UploadedFile)
deriving DecidableEq

/-- Observable effect of one request, in program order: temp-file
creation (`tempfile.NamedTemporaryFile`), saving the upload
(`file.save`), spawning an external tool with a given argument vector,
deleting a path (`os.unlink`), and a swallowed exception inside the
cleanup block (line 130-131 of app.py). -/
inductive Event where
  | alloc (path : String)
  | save (path : String)
  | tool (argv : List String)
  | unlink (path : String)
  | cleanupFault
deriving DecidableEq

/-- HTTP response produced by the handler: either `send_file` of the
converted output (status 200) or `jsonify({'error': ...}), status`. -/
inductive Response where
  | fileDownload (path : String) (download_name : List Char) (mimetype : String)
  | jsonError (error : String) (status : Nat)
deriving DecidableEq

deriving instance DecidableEq for Except

/-- Environment for one `convert_pdf` request: the subprocess
environment, the two `NamedTemporaryFile` allocations (`Except.ok path`
when creation succeeds, `Except.error msg` when it raises), and whether
`file.save` raises (with the exception text). -/
structure HEnv where
  cenv : Env
  allocInput : Except String String
  allocOutput : Except String String
  saveFault : Option String
deriving DecidableEq

/-- Outcome of one handler run: the HTTP response, the effect trace, and
the temp-file paths still on disk when the request completes. -/
structure HandlerRun where
  response : Response
  events : List Event
  finalFs : List String
deriving DecidableEq

/-- Lines 121-131 of app.py, the `finally` block.  `input_path`,
`output_path` and `success` are `none` when the corresponding Python
local is unbound at that point (reading it raises `NameError`, which the
inner `except Exception` swallows, aborting the rest of the cleanup).
Takes the list of paths existing on disk; returns the cleanup events and
the paths remaining. -/
def cleanup (input_path output_path : Option String) (success : Option Bool)
    (fs : List String) : List Event × List String :=
  match input_path with
  | none => ([Event.cleanupFault], fs)
  | some p_in =>
    let step1 : List Event × List String :=
      if p_in ≠ "" ∧ p_in ∈ fs then ([Event.unlink p_in], fs.erase p_in) else ([], fs)
    match output_path with
    | none => (step1.1 ++ [Event.cleanupFault], step1.2)
    | some p_out =>
      if p_out ≠ "" ∧ p_out ∈ step1.2 then
        match success with
        | none => (step1.1 ++ [Event.cleanupFault], step1.2)
        | some s =>
          if ¬ s then (step1.1 ++ [Event.unlink p_out], step1.2.erase p_out)
          else step1
      else step1

/-- Lines 71-131 of app.py, the `POST /convert` handler `convert_pdf`.
Validation happens before the `try`; inside it the two temp files are
created, the upload saved, `convert_to_pdfua` called, and the response
chosen; the `finally` block (`cleanup`) always runs last. -/
def convert_pdf (henv : HEnv) (req : HttpRequest) : HandlerRun :=
  match req.files.find? (fun kv => kv.fst == "pdf_file") with
  | none =>
    { response := Response.jsonError "No file uploaded" 400, events := [], finalFs := [] }
  | some (_, file) =>
    if file.filename.isEmpty then
      { response := Response.jsonError "No file selected" 400, events := [], finalFs := [] }
    else if ¬ allowed_file file.filename then
      { response := Response.jsonError "File must be a PDF" 400, events := [], finalFs := [] }
    else
      match henv.allocInput with
      | Except.error m =>
        let c := cleanup none none none []
        { response := Response.jsonError ("Processing error: " ++ m) 500,
          events := c.1, finalFs := c.2 }
      | Except.ok input_path =>
        match henv.allocOutput with
        | Except.error m =>
          let c := cleanup (some input_path) none none [input_path]
          { response := Response.jsonError ("Processing error: " ++ m) 500,
            events := Event.alloc input_path :: c.1, finalFs := c.2 }
        | Except.ok output_path =>
          match henv.saveFault with
          | some m =>
            let c := cleanup (some input_path) (some output_path) none
                       [input_path, output_path]
            { response := Response.jsonError ("Processing error: " ++ m) 500,
              events := Event.alloc input_path :: Event.alloc output_path :: c.1,
              finalFs := c.2 }
          | none =>
            let conv := convert_to_pdfua henv.cenv input_path output_path
            if conv.1.1 then
              let c := cleanup (some input_path) (some output_path) (some true)
                         [input_path, output_path]
              { response := Response.fileDownload output_path
                  ("converted_".data ++ file.filename) "application/pdf",
                events := Event.alloc input_path :: Event.alloc output_path ::
                  Event.save input_path :: (conv.2.map Event.tool ++ c.1),
                finalFs := c.2 }
            else
              let c := cleanup (some input_path) (some output_path) (some false)
                         [input_path, output_path]
              { response := Response.jsonError conv.1.2 500,
                events := Event.alloc input_path :: Event.alloc output_path ::
                  Event.save input_path :: (conv.2.map Event.tool ++ c.1),
                finalFs := c.2 }

/-- Paths of the `alloc` events of a trace. -/
def allocPaths : List Event → List String
  | [] => []
  | Event.alloc p :: t => p :: allocPaths t
  | _ :: t => allocPaths t

/-- Paths of the `unlink` events of a trace. -/
def unlinkPaths : List Event → List String
  | [] => []
  | Event.unlink p :: t => p :: unlinkPaths t
  | _ :: t => unlinkPaths t

/-- Argument vectors of the `tool` events of a trace. -/
def toolCalls : List Event → List (List String)
  | [] => []
  | Event.tool a :: t => a :: toolCalls t
  | _ :: t => toolCalls t

/-- Decides whether `needle` occurs contiguously inside `hay`. -/
def containsSeq (needle : List Char) : List Char → Bool
  | [] => needle.isEmpty
  | c :: t => needle.isPrefixOf (c :: t) || containsSeq needle t

/-- Modelled from the spec (Conversion Orchestrator, step 2), for
comparison with the source: the first line of the error stream that
contains a case-insensitive "error" token, if any. -/
def firstErrorLine (stderr : List Char) : Option (List Char) :=
  (stderr.splitOn '\n').find? (fun l => containsSeq "error".data (l.map Char.toLower))

/-- Modelled from the spec (Conversion Orchestrator, step 2), for
comparison with the source: the failure message the spec prescribes for
a non-zero convert-tool exit — first "error" line if one exists, else
the raw stream, else a generic unknown-error string. -/
def spec_failure_message (stderr : String) : String :=
  if stderr = "" then "unknown error"
  else
    match firstErrorLine stderr.data with
    | some l => String.mk l
    | none => stderr

example : firstErrorLine "warn\nError: bad xref\nmore".data = some "Error: bad xref".data := by
  decide
example : firstErrorLine "all fine here".data = none := by decide

/-- Helper: the per-character case mapping sends only `.` to `.`, so a
lowered string can end in `.pdf` only if the original had a dot there. -/
theorem toLower_eq_dot {c : Char} (h : Char.toLower c = '.') : c = '.' := by
  by_cases hc : c.toNat ≥ 65 ∧ c.toNat ≤ 90
  · exfalso
    have h' : Char.ofNat (c.toNat + 32) = '.' := by
      simpa [Char.toLower, hc] using h
    have hv : (c.toNat + 32).isValidChar := Or.inl (by omega)
    have h1 := congrArg Char.toNat h'
    rw [Char.ofNat, dif_pos hv] at h1
    simp only [Char.ofNatAux, Char.toNat, UInt32.toNat, BitVec.toNat_ofNatLt] at h1
    have hdot : ('.' : Char).val.toBitVec.toNat = 46 := by decide
    have hcn : c.val.toBitVec.toNat = c.toNat := rfl
    omega
  · simpa [Char.toLower, hc] using h

/-- True when the spawn attempt did not raise. -/
def spawnOk : RunResult → Bool
  | RunResult.ok _ => true
  | RunResult.fileNotFound _ => false

/-- Environment in which Ghostscript exits zero but the output file is
absent, and veraPDF is not installed. -/
def c1CexEnv : Env :=
  { veraProbe := RunResult.fileNotFound "No such file or directory: verapdf"
  , gsRun := RunResult.ok { returncode := 0, stdout := "", stderr := "" }
  , validateRun := RunResult.fileNotFound "No such file or directory: verapdf"
  , outputSizeAfterGs := none }

/-- Claim C1 is false of the source: here the convert tool exits zero
while the output path is absent (`outputSizeAfterGs = none`), yet
`convert_to_pdfua` reports success — the code never checks the output
file, so a zero exit code alone does yield a success outcome. -/
theorem C1_cex :
    c1CexEnv.gsRun = RunResult.ok { returncode := 0, stdout := "", stderr := "" }
  ∧ c1CexEnv.outputSizeAfterGs = none
  ∧ (convert_to_pdfua c1CexEnv "in.pdf" "out.pdf").1
      = (true, "Conversion completed (veraPDF not available for validation)") :=
  ⟨rfl, rfl, rfl⟩

/-- Claim C1 amended: when the convert tool exits zero (and the
validator spawn, if attempted, does not throw), the outcome is success
regardless of the output file: the orchestrator performs no existence or
size check, and its result is unchanged under any output-file state. -/
theorem C1_amended (env : Env) (r : ProcResult) (i o : String) (sz sz' : Option Nat)
    (hgs : env.gsRun = RunResult.ok r) (hrc : r.returncode = 0)
    (hval : spawnOk env.validateRun = true) :
    ((convert_to_pdfua env i o).1).1 = true
  ∧ convert_to_pdfua { env with outputSizeAfterGs := sz } i o
      = convert_to_pdfua { env with outputSizeAfterGs := sz' } i o := by
  refine ⟨?_, rfl⟩
  unfold convert_to_pdfua
  rw [hgs]
  cases hv : env.validateRun with
  | fileNotFound m => rw [hv] at hval; simp [spawnOk] at hval
  | ok v =>
    by_cases hva : vera_available env.veraProbe <;>
      by_cases h1 : (v.returncode == 1) = true <;> simp [hva, h1, hv, hrc]

/-- Environment exercising the amended claim C1: conversion exits zero,
the validator runs, and the output file is empty. -/
def c1WitEnv : Env :=
  { veraProbe := RunResult.ok { returncode := 0, stdout := "veraPDF 1.24", stderr := "" }
  , gsRun := RunResult.ok { returncode := 0, stdout := "", stderr := "" }
  , validateRun := RunResult.ok { returncode := 0, stdout := "", stderr := "" }
  , outputSizeAfterGs := some 0 }

/-- Witness for the amended claim C1 at a concrete environment. -/
theorem C1_amended_witness :
    ((convert_to_pdfua c1WitEnv "in.pdf" "out.pdf").1).1 = true
  ∧ convert_to_pdfua { c1WitEnv with outputSizeAfterGs := none } "in.pdf" "out.pdf"
      = convert_to_pdfua { c1WitEnv with outputSizeAfterGs := some 4096 } "in.pdf" "out.pdf" :=
  C1_amended c1WitEnv { returncode := 0, stdout := "", stderr := "" } "in.pdf" "out.pdf"
    none (some 4096) rfl rfl rfl

/-- Environment in which Ghostscript fails with a multi-line error
stream whose second line carries the "error" token. -/
def c3CexStderr : String :=
  "GPL Ghostscript 10.0: warning\nError: /undefined in xref\ntrailer not found"

def c3CexEnv : Env :=
  { veraProbe := RunResult.fileNotFound "No such file or directory: verapdf"
  , gsRun := RunResult.ok { returncode := 1, stdout := "", stderr := c3CexStderr }
  , validateRun := RunResult.fileNotFound "No such file or directory: verapdf"
  , outputSizeAfterGs := none }

/-- Claim C3 is false of the source: a first line containing the "error"
token exists in the stream, but the reported message carries the raw
stream — no line extraction is performed. -/
theorem C3_cex :
    (convert_to_pdfua c3CexEnv "in.pdf" "out.pdf").1
      = (false, "Conversion failed: GPL Ghostscript 10.0: warning\nError: /undefined in xref\ntrailer not found")
  ∧ firstErrorLine "GPL Ghostscript 10.0: warning\nError: /undefined in xref\ntrailer not found".data
      = some "Error: /undefined in xref".data
  ∧ ((convert_to_pdfua c3CexEnv "in.pdf" "out.pdf").1).2
      ≠ "Conversion failed: " ++
          spec_failure_message "GPL Ghostscript 10.0: warning\nError: /undefined in xref\ntrailer not found"
  ∧ ((convert_to_pdfua c3CexEnv "in.pdf" "out.pdf").1).2
      ≠ "Conversion failed: Error: /undefined in xref" :=
  ⟨rfl, by decide, by decide, by decide⟩

/-- Claim C3 amended: on a non-zero convert-tool exit the outcome is
failure and the message is the raw error stream (no first-error-line
extraction), with the generic Ghostscript fallback when the stream is
empty. -/
theorem C3_amended (env : Env) (r : ProcResult) (i o : String)
    (hgs : env.gsRun = RunResult.ok r) (hrc : r.returncode ≠ 0) :
    (convert_to_pdfua env i o).1
      = (false, "Conversion failed: " ++
          (if r.stderr == "" then "Unknown Ghostscript error" else r.stderr)) := by
  unfold convert_to_pdfua
  rw [hgs]
  have h0 : (r.returncode == 0) = false := by simpa using hrc
  simp [h0]

/-- Environment exercising the amended claim C3 with an empty error
stream. -/
def c3WitEnv : Env :=
  { veraProbe := RunResult.fileNotFound "No such file or directory: verapdf"
  , gsRun := RunResult.ok { returncode := 1, stdout := "", stderr := "" }
  , validateRun := RunResult.fileNotFound "No such file or directory: verapdf"
  , outputSizeAfterGs := none }

/-- Witness for the amended claim C3 at a concrete environment. -/
theorem C3_amended_witness :
    (convert_to_pdfua c3WitEnv "a.pdf" "b.pdf").1
      = (false, "Conversion failed: Unknown Ghostscript error") := by
  have h := C3_amended c3WitEnv { returncode := 1, stdout := "", stderr := "" }
    "a.pdf" "b.pdf" rfl (by decide)
  simpa using h

/-- Environment in which the probe finds veraPDF but Ghostscript then
fails, so per claim C4 the probe should never have been invoked. -/
def c4CexEnv : Env :=
  { veraProbe := RunResult.ok { returncode := 0, stdout := "veraPDF 1.24.1", stderr := "" }
  , gsRun := RunResult.ok { returncode := 1, stdout := "", stderr := "boom" }
  , validateRun := RunResult.ok { returncode := 1, stdout := "", stderr := "" }
  , outputSizeAfterGs := none }

/-- Claim C4 is false of the source: in a run whose conversion fails,
the availability probe is nevertheless invoked — and it is the first
spawn of the run, before the convert tool. -/
theorem C4_cex :
    (convert_to_pdfua c4CexEnv "in.pdf" "out.pdf").2
      = [verapdf_version_cmd, gs_cmd "out.pdf" "in.pdf"]
  ∧ ((convert_to_pdfua c4CexEnv "in.pdf" "out.pdf").1).1 = false :=
  ⟨rfl, rfl⟩

/-- Claim C4 amended: the availability probe is invoked unconditionally
at the start of every run, before the convert tool — never gated on the
conversion having succeeded. -/
theorem C4_amended (env : Env) (i o : String) :
    List.take 2 (convert_to_pdfua env i o).2 = [verapdf_version_cmd, gs_cmd o i] := by
  unfold convert_to_pdfua
  cases env.gsRun with
  | fileNotFound m => simp
  | ok gs =>
    cases env.validateRun with
    | fileNotFound m =>
      by_cases h0 : (gs.returncode == 0) = true <;>
        by_cases hva : vera_available env.veraProbe <;> simp [h0, hva]
    | ok v =>
      by_cases h0 : (gs.returncode == 0) = true <;>
        by_cases hva : vera_available env.veraProbe <;>
          by_cases h1 : (v.returncode == 1) = true <;> simp [h0, hva, h1]

/-- Witness for the amended claim C4 at a concrete environment. -/
theorem C4_amended_witness :
    List.take 2 (convert_to_pdfua c4CexEnv "doc.pdf" "outdoc.pdf").2
      = [verapdf_version_cmd, gs_cmd "outdoc.pdf" "doc.pdf"] :=
  C4_amended c4CexEnv "doc.pdf" "outdoc.pdf"

/-- Claim C6: whenever the validator actually runs against the output,
the overall outcome is success whatever its exit code; exit code 1 (the
sentinel) selects the validated message, every other code the
unconfirmed message. -/
theorem C6_validator_advisory (env : Env) (p gs v : ProcResult) (i o : String)
    (hp : env.veraProbe = RunResult.ok p) (hpc : p.returncode = 0)
    (hgs : env.gsRun = RunResult.ok gs) (hrc : gs.returncode = 0)
    (hv : env.validateRun = RunResult.ok v) :
    (convert_to_pdfua env i o).1
      = (true,
         if v.returncode == 1 then "Successfully converted to PDF/UA (validated)"
         else "Conversion completed but file may not be fully PDF/UA compliant") := by
  unfold convert_to_pdfua
  rw [hgs, hv]
  by_cases h1 : (v.returncode == 1) = true <;>
    simp [h1, hrc, vera_available, hp, hpc]

/-- Environment in which the validator runs and reports non-compliance
(exit code 0 under the inverted veraPDF convention). -/
def c6WitEnv : Env :=
  { veraProbe := RunResult.ok { returncode := 0, stdout := "veraPDF 1.24.1", stderr := "" }
  , gsRun := RunResult.ok { returncode := 0, stdout := "", stderr := "" }
  , validateRun := RunResult.ok { returncode := 0, stdout := "nonCompliant", stderr := "" }
  , outputSizeAfterGs := some 8192 }

/-- Witness for claim C6 at a concrete environment: a non-sentinel
validator exit still yields overall success. -/
theorem C6_validator_advisory_witness :
    (convert_to_pdfua c6WitEnv "in.pdf" "out.pdf").1
      = (true, "Conversion completed but file may not be fully PDF/UA compliant") := by
  have h := C6_validator_advisory c6WitEnv
    { returncode := 0, stdout := "veraPDF 1.24.1", stderr := "" }
    { returncode := 0, stdout := "", stderr := "" }
    { returncode := 0, stdout := "nonCompliant", stderr := "" }
    "in.pdf" "out.pdf" rfl rfl rfl rfl rfl
  simpa using h

/-- Claim C7: when the availability probe reports the validator
unavailable (spawn failure or non-zero exit) and the convert tool exits
zero, the outcome is success with the message noting that validation was
not performed, and the validator is never spawned. -/
theorem C7_skips_validation (env : Env) (gs : ProcResult) (i o : String)
    (hna : vera_available env.veraProbe = false)
    (hgs : env.gsRun = RunResult.ok gs) (hrc : gs.returncode = 0) :
    (convert_to_pdfua env i o).1
      = (true, "Conversion completed (veraPDF not available for validation)")
  ∧ (convert_to_pdfua env i o).2 = [verapdf_version_cmd, gs_cmd o i] := by
  unfold convert_to_pdfua
  rw [hgs]
  simp [hna, hrc]

/-- Environment in which the probe itself runs but exits non-zero
(`CalledProcessError`, caught), and conversion succeeds. -/
def c7WitEnv : Env :=
  { veraProbe := RunResult.ok { returncode := 2, stdout := "", stderr := "usage" }
  , gsRun := RunResult.ok { returncode := 0, stdout := "", stderr := "" }
  , validateRun := RunResult.ok { returncode := 1, stdout := "", stderr := "" }
  , outputSizeAfterGs := some 4096 }

/-- Witness for claim C7 at a concrete environment. -/
theorem C7_skips_validation_witness :
    (convert_to_pdfua c7WitEnv "in.pdf" "out.pdf").1
      = (true, "Conversion completed (veraPDF not available for validation)")
  ∧ (convert_to_pdfua c7WitEnv "in.pdf" "out.pdf").2
      = [verapdf_version_cmd, gs_cmd "out.pdf" "in.pdf"] :=
  C7_skips_validation c7WitEnv { returncode := 0, stdout := "", stderr := "" }
    "in.pdf" "out.pdf" rfl rfl rfl

/-- Claim C10: `allowed_file` agrees with the bare lowercase suffix test
on every filename — the extra dot-membership conjunct adds nothing,
because a lowered string can only end in `.pdf` where the original
already had a dot. -/
theorem C10_allowed_file_eq_suffix (f : List Char) :
    allowed_file f = List.isSuffixOf ".pdf".data (f.map Char.toLower) := by
  unfold allowed_file
  cases hs : List.isSuffixOf ".pdf".data (f.map Char.toLower) with
  | false => simp
  | true =>
    have hsuf : ".pdf".data <:+ f.map Char.toLower := by
      have h2 : List.isSuffixOf ".pdf".data (f.map Char.toLower) = true := hs
      exact List.isSuffixOf_iff_suffix.mp h2
    obtain ⟨t, ht⟩ := hsuf
    have hdot : '.' ∈ f.map Char.toLower := by
      rw [← ht]
      simp [String.data]
    obtain ⟨c, hcf, hlc⟩ := List.mem_map.mp hdot
    have hcd : c = '.' := toLower_eq_dot hlc
    subst hcd
    simp [List.contains, List.elem_eq_mem, hcf]

/-- Witness for claim C10 at the concrete filename `.pdf` (a bare
extension is accepted). -/
theorem C10_allowed_file_eq_suffix_witness :
    allowed_file ".pdf".data
      = List.isSuffixOf ".pdf".data (".pdf".data.map Char.toLower) :=
  C10_allowed_file_eq_suffix ".pdf".data

/-- Conversion environment shared by the handler witnesses: veraPDF is
absent and Ghostscript succeeds. -/
def baseCEnv : Env :=
  { veraProbe := RunResult.fileNotFound "No such file or directory: verapdf"
  , gsRun := RunResult.ok { returncode := 0, stdout := "", stderr := "" }
  , validateRun := RunResult.fileNotFound "No such file or directory: verapdf"
  , outputSizeAfterGs := some 8192 }

/-- Claim C8: the three upload checks run in order — field present, then
filename non-empty, then the extension test — each failing check
short-circuiting with its own message and HTTP 400, with an empty effect
trace (no temp file allocated, no external tool spawned). -/
theorem C8_validation_order (henv : HEnv) (req : HttpRequest) :
    (req.files.find? (fun kv => kv.fst == "pdf_file") = none →
      convert_pdf henv req
        = { response := Response.jsonError "No file uploaded" 400, events := [], finalFs := [] })
  ∧ (∀ k file, req.files.find? (fun kv => kv.fst == "pdf_file") = some (k, file) →
      file.filename.isEmpty = true →
      convert_pdf henv req
        = { response := Response.jsonError "No file selected" 400, events := [], finalFs := [] })
  ∧ (∀ k file, req.files.find? (fun kv => kv.fst == "pdf_file") = some (k, file) →
      file.filename.isEmpty = false →
      allowed_file file.filename = false →
      convert_pdf henv req
        = { response := Response.jsonError "File must be a PDF" 400, events := [], finalFs := [] }) := by
  refine ⟨?_, ?_, ?_⟩
  · intro h
    unfold convert_pdf
    rw [h]
  · intro k file h hempty
    unfold convert_pdf
    rw [h]
    simp [hempty]
  · intro k file h hempty hnp
    unfold convert_pdf
    rw [h]
    simp [hempty, hnp]

def c8HEnv : HEnv :=
  { cenv := baseCEnv, allocInput := Except.ok "/tmp/tmp_in_c8.pdf"
  , allocOutput := Except.ok "/tmp/tmp_out_c8.pdf", saveFault := none }

def c8ReqMissing : HttpRequest := { files := [("other_field", { filename := "a.pdf".data })] }

def c8ReqEmpty : HttpRequest := { files := [("pdf_file", { filename := [] })] }

def c8ReqTxt : HttpRequest := { files := [("pdf_file", { filename := "notes.txt".data })] }

/-- Witness for claim C8 at three concrete uploads, one per failing
check. -/
theorem C8_validation_order_witness :
    convert_pdf c8HEnv c8ReqMissing
      = { response := Response.jsonError "No file uploaded" 400, events := [], finalFs := [] }
  ∧ convert_pdf c8HEnv c8ReqEmpty
      = { response := Response.jsonError "No file selected" 400, events := [], finalFs := [] }
  ∧ convert_pdf c8HEnv c8ReqTxt
      = { response := Response.jsonError "File must be a PDF" 400, events := [], finalFs := [] } :=
  ⟨(C8_validation_order c8HEnv c8ReqMissing).1 (by decide),
   (C8_validation_order c8HEnv c8ReqEmpty).2.1 "pdf_file" { filename := [] }
     (by decide) (by decide),
   (C8_validation_order c8HEnv c8ReqTxt).2.2 "pdf_file" { filename := "notes.txt".data }
     (by decide) (by decide) (by decide)⟩

/-- Claim C9: on every successful conversion the response streams the
output temp file under the download name obtained by prepending
`converted_` to the client-supplied filename, unchanged otherwise. -/
theorem C9_download_name (henv : HEnv) (req : HttpRequest) (k : String)
    (file : UploadedFile) (ip op : String)
    (hfind : req.files.find? (fun kv => kv.fst == "pdf_file") = some (k, file))
    (hne : file.filename.isEmpty = false)
    (hok : allowed_file file.filename = true)
    (hai : henv.allocInput = Except.ok ip)
    (hao : henv.allocOutput = Except.ok op)
    (hsv : henv.saveFault = none)
    (hsucc : ((convert_to_pdfua henv.cenv ip op).1).1 = true) :
    (convert_pdf henv req).response
      = Response.fileDownload op ("converted_".data ++ file.filename) "application/pdf" := by
  unfold convert_pdf
  rw [hfind]
  simp [hne, hok, hai, hao, hsv, hsucc]

def c9HEnv : HEnv :=
  { cenv := baseCEnv, allocInput := Except.ok "/tmp/tmp_in_c9.pdf"
  , allocOutput := Except.ok "/tmp/tmp_out_c9.pdf", saveFault := none }

def c9Req : HttpRequest := { files := [("pdf_file", { filename := "report.pdf".data })] }

/-- Witness for claim C9 at a concrete successful request. -/
theorem C9_download_name_witness :
    (convert_pdf c9HEnv c9Req).response
      = Response.fileDownload "/tmp/tmp_out_c9.pdf"
          ("converted_".data ++ "report.pdf".data) "application/pdf" :=
  C9_download_name c9HEnv c9Req "pdf_file" { filename := "report.pdf".data }
    "/tmp/tmp_in_c9.pdf" "/tmp/tmp_out_c9.pdf"
    (by decide) (by decide) (by decide) rfl rfl rfl (by decide)

def c2CexHEnv : HEnv :=
  { cenv := baseCEnv, allocInput := Except.ok "/tmp/tmp_in_c2.pdf"
  , allocOutput := Except.ok "/tmp/tmp_out_c2.pdf", saveFault := none }

def c2CexReq : HttpRequest := { files := [("pdf_file", { filename := "doc.pdf".data })] }

/-- Claim C2 is false of the source: on a successful conversion two temp
files are allocated but only the input is released — the output file is
still on disk when the request completes. -/
theorem C2_cex :
    allocPaths (convert_pdf c2CexHEnv c2CexReq).events
      = ["/tmp/tmp_in_c2.pdf", "/tmp/tmp_out_c2.pdf"]
  ∧ unlinkPaths (convert_pdf c2CexHEnv c2CexReq).events = ["/tmp/tmp_in_c2.pdf"]
  ∧ (convert_pdf c2CexHEnv c2CexReq).finalFs = ["/tmp/tmp_out_c2.pdf"] :=
  ⟨by decide, by decide, by decide⟩

/-- Distinctness side conditions `tempfile.NamedTemporaryFile`
guarantees: allocated paths are non-empty and pairwise distinct. -/
def goodPaths (henv : HEnv) : Bool :=
  match henv.allocInput, henv.allocOutput with
  | Except.ok ip, Except.ok op => ip != "" && (op != "" && ip != op)
  | Except.ok ip, Except.error _ => ip != ""
  | Except.error _, Except.ok op => op != ""
  | Except.error _, Except.error _ => true

/-- Helper: allocation extraction distributes over trace concatenation. -/
theorem allocPaths_append (a b : List Event) :
    allocPaths (a ++ b) = allocPaths a ++ allocPaths b := by
  induction a with
  | nil => rfl
  | cons e t ih => cases e <;> simp [allocPaths, ih]

/-- Helper: deletion extraction distributes over trace concatenation. -/
theorem unlinkPaths_append (a b : List Event) :
    unlinkPaths (a ++ b) = unlinkPaths a ++ unlinkPaths b := by
  induction a with
  | nil => rfl
  | cons e t ih => cases e <;> simp [unlinkPaths, ih]

/-- Helper: tool spawns contribute no allocation events. -/
theorem allocPaths_tools (ts : List (List String)) :
    allocPaths (List.map Event.tool ts) = [] := by
  induction ts with
  | nil => rfl
  | cons a t ih => simpa [allocPaths] using ih

/-- Helper: tool spawns contribute no deletion events. -/
theorem unlinkPaths_tools (ts : List (List String)) :
    unlinkPaths (List.map Event.tool ts) = [] := by
  induction ts with
  | nil => rfl
  | cons a t ih => simpa [unlinkPaths] using ih

/-- Claim C2 amended: on every exit path, only allocated paths are ever
deleted and none is deleted twice — the allocations are exactly the
deletions followed by the paths left on disk; at most one path (the
output temp file) can remain, namely on the success exit, where it is
deliberately kept for streaming, and on a fault thrown between its
allocation and the assignment of the success flag, where the cleanup
aborts on the unbound flag. -/
theorem C2_amended (henv : HEnv) (req : HttpRequest) (h : goodPaths henv = true) :
    allocPaths (convert_pdf henv req).events
      = unlinkPaths (convert_pdf henv req).events ++ (convert_pdf henv req).finalFs
  ∧ List.Nodup (allocPaths (convert_pdf henv req).events)
  ∧ (convert_pdf henv req).finalFs.length ≤ 1 := by
  cases hf : req.files.find? (fun kv => kv.fst == "pdf_file") with
  | none => simp [convert_pdf, hf, allocPaths, unlinkPaths]
  | some kv =>
    obtain ⟨k, file⟩ := kv
    by_cases hemp : file.filename.isEmpty
    · simp [convert_pdf, hf, hemp, allocPaths, unlinkPaths]
    · by_cases hok : allowed_file file.filename
      · cases hai : henv.allocInput with
        | error m =>
          simp [convert_pdf, hf, hemp, hok, hai, cleanup, allocPaths, unlinkPaths]
        | ok ip =>
          cases hao : henv.allocOutput with
          | error m =>
            have hip : ¬ ip = "" := by
              rw [goodPaths, hai, hao] at h
              simpa using h
            simp [convert_pdf, hf, hemp, hok, hai, hao, cleanup, hip,
              allocPaths, unlinkPaths]
          | ok op =>
            have hgp : ¬ ip = "" ∧ ¬ op = "" ∧ ¬ ip = op := by
              rw [goodPaths, hai, hao] at h
              simpa using h
            obtain ⟨hip, hop, hne⟩ := hgp
            cases hsv : henv.saveFault with
            | some m =>
              simp [convert_pdf, hf, hemp, hok, hai, hao, hsv, cleanup, hip, hop, hne,
                allocPaths, unlinkPaths]
            | none =>
              by_cases hsucc : ((convert_to_pdfua henv.cenv ip op).1).1 = true
              · simp [convert_pdf, hf, hemp, hok, hai, hao, hsv, hsucc, cleanup,
                  hip, hop, hne, allocPaths, unlinkPaths, allocPaths_append,
                  unlinkPaths_append, allocPaths_tools, unlinkPaths_tools]
              · simp [convert_pdf, hf, hemp, hok, hai, hao, hsv, hsucc, cleanup,
                  hip, hop, hne, allocPaths, unlinkPaths, allocPaths_append,
                  unlinkPaths_append, allocPaths_tools, unlinkPaths_tools]
      · simp [convert_pdf, hf, hemp, hok, allocPaths, unlinkPaths]

def c2WitHEnv : HEnv :=
  { cenv := { veraProbe := RunResult.fileNotFound "No such file or directory: verapdf"
            , gsRun := RunResult.ok { returncode := 1, stdout := "", stderr := "oom" }
            , validateRun := RunResult.fileNotFound "No such file or directory: verapdf"
            , outputSizeAfterGs := none }
  , allocInput := Except.ok "/tmp/tmp_in_w2.pdf"
  , allocOutput := Except.ok "/tmp/tmp_out_w2.pdf", saveFault := none }

def c2WitReq : HttpRequest := { files := [("pdf_file", { filename := "doc.pdf".data })] }

/-- Witness for the amended claim C2 at a concrete failing conversion
(both temp files released, nothing left on disk). -/
theorem C2_amended_witness :
    allocPaths (convert_pdf c2WitHEnv c2WitReq).events
      = unlinkPaths (convert_pdf c2WitHEnv c2WitReq).events
          ++ (convert_pdf c2WitHEnv c2WitReq).finalFs
  ∧ List.Nodup (allocPaths (convert_pdf c2WitHEnv c2WitReq).events)
  ∧ (convert_pdf c2WitHEnv c2WitReq).finalFs.length ≤ 1 :=
  C2_amended c2WitHEnv c2WitReq (by decide)

def c5HEnv : HEnv :=
  { cenv := baseCEnv, allocInput := Except.ok "/tmp/tmp_in_c5.pdf"
  , allocOutput := Except.ok "/tmp/tmp_out_c5.pdf"
  , saveFault := some "No space left on device" }

def c5Req : HttpRequest := { files := [("pdf_file", { filename := "doc.pdf".data })] }

/-- Claim C5 and the code at its failing input: when `file.save` raises
after both temp files were created, the fault is caught and reported as
a generic processing error as the claim says, but only the input temp
file is released — the cleanup block reads the never-assigned `success`
local, the resulting `NameError` is swallowed, and the output temp file
is left on disk. -/
theorem C5_bug_eval :
    (convert_pdf c5HEnv c5Req).response
      = Response.jsonError "Processing error: No space left on device" 500
  ∧ allocPaths (convert_pdf c5HEnv c5Req).events
      = ["/tmp/tmp_in_c5.pdf", "/tmp/tmp_out_c5.pdf"]
  ∧ unlinkPaths (convert_pdf c5HEnv c5Req).events = ["/tmp/tmp_in_c5.pdf"]
  ∧ (convert_pdf c5HEnv c5Req).finalFs = ["/tmp/tmp_out_c5.pdf"]
  ∧ Event.cleanupFault ∈ (convert_pdf c5HEnv c5Req).events :=
  ⟨rfl, by decide, by decide, by decide, by decide⟩

end PdfuaService
